import Mathlib

/-!
Verification of the otg-mcp traffic-generator control adapter.

This file gives a shallow embedding of the core of the repository
(`src/mcp-servers/otg-mcp/src/otg_mcp/schema_registry.py`, `client.py`,
`client_capture.py`, `config.py`) and proves or refutes the specification
claims about it.  Python strings are modelled as Lean `String`, version
tuples as `List Nat`, floating-point transmit rates as `ℚ`, and calls on
the external snappi device handle as boolean/abstract outcome parameters:
a strategy call either completes (`true`) or raises (`false`).
-/

namespace SchemaRegistry

/-- Splitting of a version string on `_` and `.`, the combined effect of
`version.replace(".", "_").split("_")` inside `SchemaRegistry._parse_version`
(schema_registry.py line 219).  Mirrors Python `str.split(sep)`: the empty
string yields `[""]` and separators delimit possibly-empty parts. -/
def splitVersionChars : List Char → List (List Char)
  | [] => [[]]
  | c :: cs =>
    let rest := splitVersionChars cs
    if c = '_' ∨ c = '.' then [] :: rest
    else
      match rest with
      | [] => [[c]]
      | p :: ps => (c :: p) :: ps

/-- Python `str.isdigit` restricted to ASCII: nonempty and all digits. -/
def partIsDigits (p : List Char) : Bool := !p.isEmpty && p.all Char.isDigit

/-- Python `int(...)` on a decimal digit string. -/
def partToNat (p : List Char) : Nat := p.foldl (fun n c => n * 10 + (c.toNat - 48)) 0

/-- `SchemaRegistry._parse_version` (schema_registry.py lines 209-224):
keep the digit-only parts, in order; non-digit parts are dropped. -/
def parse_version (v : String) : List Nat :=
  (splitVersionChars v.toList).filterMap
    (fun p => if partIsDigits p then some (partToNat p) else none)

/-- `SchemaRegistry._normalize_version` (lines 42-53): dots become underscores. -/
def normalize_version (v : String) : String :=
  ⟨v.toList.map (fun c => if c = '.' then '_' else c)⟩

/-- Python tuple comparison `a <= b` on version tuples: lexicographic with a
proper prefix below every extension. -/
def tupLe : List Nat → List Nat → Bool
  | [], _ => true
  | _ :: _, [] => false
  | a :: as, b :: bs => if a < b then true else if b < a then false else tupLe as bs

/-- One step of a maximum scan over `(version, tuple)` pairs; on equal tuples
the later element wins, matching `sorted(xs, key=lambda x: x[1])[-1]` for the
stable Python sort. -/
def pickStep (acc : Option (String × List Nat)) (p : String × List Nat) :
    Option (String × List Nat) :=
  match acc with
  | none => some p
  | some q => if tupLe q.2 p.2 then some p else some q

/-- Value of `sorted(xs, key=lambda x: x[1])[-1]`: the last element attaining
the maximal version tuple (`none` on the empty list, where Python would raise
an IndexError that the callers rule out). -/
def pickLatest (xs : List (String × List Nat)) : Option (String × List Nat) :=
  xs.foldl pickStep none

/-- `SchemaRegistry._get_parsed_versions` (lines 328-344): pair each available
version with its parsed tuple, dropping versions whose tuple is empty. -/
def get_parsed_versions (avail : List String) : List (String × List Nat) :=
  avail.filterMap (fun v =>
    let t := parse_version v
    if t.isEmpty then none else some (v, t))

/-- `SchemaRegistry.get_latest_schema_version` (lines 443-472), with the two
`ValueError` raises (no versions, no parseable versions) modelled as `none`. -/
def get_latest_schema_version (avail : List String) : Option String :=
  if avail.isEmpty then none
  else (pickLatest (get_parsed_versions avail)).map Prod.fst

/-- Padding of the requested tuple to at least three components with trailing
zeros (schema_registry.py lines 390-392). -/
def padTo3 (t : List Nat) : List Nat :=
  if t.length < 3 then t ++ List.replicate (3 - t.length) 0 else t

/-- The `same_major_minor` list built at schema_registry.py lines 404-412:
parsed available versions with at least three components whose major and minor
equal the requested ones and whose patch is at most the requested patch. -/
def same_major_minor_filter (parsed : List (String × List Nat)) (req : List Nat) :
    List (String × List Nat) :=
  parsed.filter (fun p =>
    decide (3 ≤ p.2.length) && decide (p.2.getD 0 0 = req.getD 0 0) &&
      decide (p.2.getD 1 0 = req.getD 1 0) && decide (p.2.getD 2 0 ≤ req.getD 2 0))

/-- The `same_major` list built at schema_registry.py lines 422-426: parsed
available versions with a nonempty tuple sharing the requested major. -/
def same_major_filter (parsed : List (String × List Nat)) (req : List Nat) :
    List (String × List Nat) :=
  parsed.filter (fun p => !p.2.isEmpty && decide (p.2.getD 0 0 = req.getD 0 0))

/-- `SchemaRegistry.find_closest_schema_version` (lines 346-441).  The
`ValueError` raises (no versions available, no valid versions) are modelled
as `none`. -/
def find_closest_schema_version (avail : List String) (requested : String) :
    Option String :=
  if avail.isEmpty then none
  else
    let normalized := normalize_version requested
    if avail.contains normalized then some normalized
    else
      let req0 := parse_version requested
      if req0.isEmpty then get_latest_schema_version avail
      else
        let req := padTo3 req0
        let parsed := get_parsed_versions avail
        if parsed.isEmpty then none
        else
          match pickLatest (same_major_minor_filter parsed req) with
          | some c => some c.1
          | none =>
            match pickLatest (same_major_filter parsed req) with
            | some c => some c.1
            | none => (pickLatest parsed).map Prod.fst

/-- Major component of a version tuple (missing components read as `0`). -/
def vmajor (t : List Nat) : Nat := t.getD 0 0

/-- Minor component of a version tuple. -/
def vminor (t : List Nat) : Nat := t.getD 1 0

/-- Patch component of a version tuple. -/
def vpatch (t : List Nat) : Nat := t.getD 2 0

/-- Element with the lexicographically greatest tuple, later elements winning
ties; structural-recursion counterpart of `pickLatest` used by the spec-side
definitions below. -/
def greatestByTuple : List (String × List Nat) → Option (String × List Nat)
  | [] => none
  | p :: rest =>
    match greatestByTuple rest with
    | none => some p
    | some q => if tupLe p.2 q.2 then some q else some p

/-- Spec-side statement of the resolution algorithm, written from the claim's
words: exact normalized match first; if the requested version parses, the
greatest-tuple version among those with the requested major and minor and patch
at most the requested patch (the requested tuple padded to three components);
failing that the greatest sharing the requested major; failing that the
greatest among all parseable versions. -/
def findClosest_spec (avail : List String) (requested : String) : Option String :=
  if avail.isEmpty then none
  else
    let n := normalize_version requested
    if avail.contains n then some n
    else
      let parsed := get_parsed_versions avail
      let t := parse_version requested
      if t.isEmpty then (greatestByTuple parsed).map Prod.fst
      else
        let r := padTo3 t
        let tier2 := parsed.filter (fun p =>
          decide (3 ≤ p.2.length ∧ vmajor p.2 = vmajor r ∧ vminor p.2 = vminor r ∧
            vpatch p.2 ≤ vpatch r))
        match greatestByTuple tier2 with
        | some p => some p.1
        | none =>
          let tier3 := parsed.filter (fun p => decide (p.2 ≠ [] ∧ vmajor p.2 = vmajor r))
          match greatestByTuple tier3 with
          | some p => some p.1
          | none => (greatestByTuple parsed).map Prod.fst

theorem tupLe_refl (a : List Nat) : tupLe a a = true := by
  induction a with
  | nil => rfl
  | cons x xs ih => simp [tupLe, ih]

theorem tupLe_total (a b : List Nat) : tupLe a b = true ∨ tupLe b a = true := by
  induction a generalizing b with
  | nil => exact Or.inl rfl
  | cons x xs ih =>
    cases b with
    | nil => exact Or.inr rfl
    | cons y ys =>
      rcases Nat.lt_trichotomy x y with h | h | h
      · exact Or.inl (by simp [tupLe, h])
      · subst h
        rcases ih ys with h2 | h2
        · exact Or.inl (by simp [tupLe, h2])
        · exact Or.inr (by simp [tupLe, h2])
      · exact Or.inr (by simp [tupLe, h])

theorem tupLe_trans : ∀ {a b c : List Nat},
    tupLe a b = true → tupLe b c = true → tupLe a c = true := by
  intro a
  induction a with
  | nil => intro b c _ _; rfl
  | cons x xs ih =>
    intro b c h1 h2
    cases b with
    | nil => simp [tupLe] at h1
    | cons y ys =>
      cases c with
      | nil => simp [tupLe] at h2
      | cons z zs =>
        by_cases hxy : x < y
        · by_cases hyz : y < z
          · have hxz : x < z := Nat.lt_trans hxy hyz
            simp [tupLe, hxz]
          · by_cases hzy : z < y
            · simp [tupLe, hyz, hzy] at h2
            · have hyzeq : y = z := Nat.le_antisymm (Nat.not_lt.mp hzy) (Nat.not_lt.mp hyz)
              subst hyzeq
              simp [tupLe, hxy]
        · by_cases hyx : y < x
          · simp [tupLe, hxy, hyx] at h1
          · have hxyeq : x = y := Nat.le_antisymm (Nat.not_lt.mp hyx) (Nat.not_lt.mp hxy)
            subst hxyeq
            simp only [tupLe, lt_self_iff_false, if_false] at h1
            by_cases hxz : x < z
            · simp [tupLe, hxz]
            · by_cases hzx : z < x
              · simp [tupLe, hxz, hzx] at h2
              · have hxzeq : x = z := Nat.le_antisymm (Nat.not_lt.mp hzx) (Nat.not_lt.mp hxz)
                subst hxzeq
                simp only [tupLe, lt_self_iff_false, if_false] at h2 ⊢
                exact ih h1 h2

theorem foldl_pickStep :
    ∀ (rest : List (String × List Nat)) (acc : String × List Nat),
      List.foldl pickStep (some acc) rest =
        match greatestByTuple rest with
        | none => some acc
        | some q => if tupLe acc.2 q.2 then some q else some acc := by
  intro rest
  induction rest with
  | nil => intro acc; rfl
  | cons r rest ih =>
    intro acc
    show List.foldl pickStep (pickStep (some acc) r) rest = _
    rcases h : greatestByTuple rest with _ | q
    · cases hacr : tupLe acc.2 r.2 with
      | true => simp [pickStep, hacr, ih r, h, greatestByTuple]
      | false => simp [pickStep, hacr, ih acc, h, greatestByTuple]
    · cases hrq : tupLe r.2 q.2 with
      | true =>
        cases hacr : tupLe acc.2 r.2 with
        | true =>
          have hacq : tupLe acc.2 q.2 = true := tupLe_trans hacr hrq
          simp [pickStep, hacr, ih r, h, greatestByTuple, hrq, hacq]
        | false =>
          simp [pickStep, hacr, ih acc, h, greatestByTuple, hrq]
      | false =>
        cases hacr : tupLe acc.2 r.2 with
        | true =>
          simp [pickStep, hacr, ih r, h, greatestByTuple, hrq]
        | false =>
          have hacq : tupLe acc.2 q.2 = false := by
            cases hq : tupLe acc.2 q.2 with
            | false => rfl
            | true =>
              have hqr : tupLe q.2 r.2 = true := by
                rcases tupLe_total q.2 r.2 with h' | h'
                · exact h'
                · rw [h'] at hrq; cases hrq
              have hr' : tupLe acc.2 r.2 = true := tupLe_trans hq hqr
              rw [hr'] at hacr; cases hacr
          simp [pickStep, hacr, ih acc, h, greatestByTuple, hrq, hacq]

theorem pickLatest_eq_greatest (xs : List (String × List Nat)) :
    pickLatest xs = greatestByTuple xs := by
  cases xs with
  | nil => rfl
  | cons p rest =>
    show List.foldl pickStep (some p) rest = _
    rw [foldl_pickStep]
    rcases h : greatestByTuple rest with _ | q
    · simp [greatestByTuple, h]
    · simp [greatestByTuple, h]

theorem same_major_minor_filter_eq (parsed : List (String × List Nat)) (req : List Nat) :
    same_major_minor_filter parsed req =
      parsed.filter (fun p =>
        decide (3 ≤ p.2.length ∧ vmajor p.2 = vmajor req ∧ vminor p.2 = vminor req ∧
          vpatch p.2 ≤ vpatch req)) := by
  unfold same_major_minor_filter
  congr 1
  funext p
  simp [vmajor, vminor, vpatch, Bool.decide_and, Bool.and_assoc]

theorem same_major_filter_eq (parsed : List (String × List Nat)) (req : List Nat) :
    same_major_filter parsed req =
      parsed.filter (fun p => decide (p.2 ≠ [] ∧ vmajor p.2 = vmajor req)) := by
  unfold same_major_filter
  congr 1
  funext p
  cases h : p.2 <;> simp [vmajor, h, Bool.decide_and]

/-- C1: `find_closest_schema_version` implements the deterministic tiered
resolution stated by the spec (exact normalized match; then greatest tuple
among same major.minor with patch at most the requested patch, the requested
tuple padded to three components; then greatest with the same major; then
greatest among all parseable versions), and with available versions
`{1_30_0, 1_31_0}` resolving `"1.35.0"` yields `1_31_0`. -/
theorem C1_find_closest_tiered :
    (∀ (avail : List String) (requested : String),
      find_closest_schema_version avail requested = findClosest_spec avail requested) ∧
    find_closest_schema_version ["1_30_0", "1_31_0"] "1.35.0" = some "1_31_0" := by
  constructor
  · intro avail requested
    by_cases h0 : avail = []
    · simp [find_closest_schema_version, findClosest_spec, h0]
    · by_cases h1 : normalize_version requested ∈ avail
      · simp [find_closest_schema_version, findClosest_spec, h0, h1]
      · by_cases h2 : parse_version requested = []
        · simp [find_closest_schema_version, findClosest_spec, get_latest_schema_version,
            h0, h1, h2, pickLatest_eq_greatest]
        · by_cases h3 : get_parsed_versions avail = []
          · simp [find_closest_schema_version, findClosest_spec, h0, h1, h2, h3,
              same_major_minor_filter_eq, same_major_filter_eq, greatestByTuple]
          · simp [find_closest_schema_version, findClosest_spec, h0, h1, h2, h3,
              pickLatest_eq_greatest, same_major_minor_filter_eq, same_major_filter_eq]
  · decide

/-- The same-major-minor tier the way claim C9 reads it: every available
version's tuple is also padded to three components before the comparison, so a
two-component version counts with patch `0`.  Written from the claim's words,
for comparison with the code's `same_major_minor_filter`. -/
def same_major_minor_padded (parsed : List (String × List Nat)) (req : List Nat) :
    List (String × List Nat) :=
  parsed.filter (fun p =>
    decide (vmajor (padTo3 p.2) = vmajor req ∧ vminor (padTo3 p.2) = vminor req ∧
      vpatch (padTo3 p.2) ≤ vpatch req))

/-- The resolution algorithm as it would behave under claim C9's padding of
available versions: identical to `findClosest_spec` except that the
same-major-minor tier uses `same_major_minor_padded`. -/
def findClosest_paddedAvail (avail : List String) (requested : String) : Option String :=
  if avail.isEmpty then none
  else
    let n := normalize_version requested
    if avail.contains n then some n
    else
      let parsed := get_parsed_versions avail
      let t := parse_version requested
      if t.isEmpty then (greatestByTuple parsed).map Prod.fst
      else
        let r := padTo3 t
        match greatestByTuple (same_major_minor_padded parsed r) with
        | some p => some p.1
        | none =>
          let tier3 := parsed.filter (fun p => decide (p.2 ≠ [] ∧ vmajor p.2 = vmajor r))
          match greatestByTuple tier3 with
          | some p => some p.1
          | none => (greatestByTuple parsed).map Prod.fst

/-- C9 counterexample: with available versions `{1_30, 1_31_0}` and request
`"1.30.5"`, the code resolves to `1_31_0` (the two-component `1_30` is not
eligible for the same-major.minor tier), while the claim's padded reading
would resolve to `1_30` (padded to patch `0`, which is at most `5`). -/
theorem C9_counterexample :
    find_closest_schema_version ["1_30", "1_31_0"] "1.30.5" = some "1_31_0" ∧
    findClosest_paddedAvail ["1_30", "1_31_0"] "1.30.5" = some "1_30" ∧
    parse_version "1_30" = [1, 30] := by decide

/-- C9 amended: only the requested version's tuple is padded with trailing
zeros to length 3; an available version whose tuple has fewer than three
components is excluded from the same-major.minor tier, though it stays
eligible for the same-major tier, as resolving `"1.30.5"` against the single
available version `1_30` shows. -/
theorem C9_amended_padding :
    (∀ (parsed : List (String × List Nat)) (req : List Nat) e,
        e ∈ same_major_minor_filter parsed req → 3 ≤ e.2.length) ∧
    (∀ (parsed : List (String × List Nat)) (req : List Nat) e,
        e ∈ parsed → e.2 ≠ [] → vmajor e.2 = vmajor req →
          e ∈ same_major_filter parsed req) ∧
    find_closest_schema_version ["1_30"] "1.30.5" = some "1_30" := by
  refine ⟨?_, ?_, by decide⟩
  · intro parsed req e he
    have := (List.mem_filter.mp he).2
    simp only [Bool.and_eq_true, decide_eq_true_eq] at this
    exact this.1.1.1
  · intro parsed req e he hne hmaj
    refine List.mem_filter.mpr ⟨he, ?_⟩
    have hb : (!e.2.isEmpty) = true := by
      cases hx : e.2
      · exact absurd hx hne
      · rfl
    rw [Bool.and_eq_true]
    exact ⟨hb, decide_eq_true hmaj⟩

/-- Closed witness for `C9_amended_padding`, instantiating both universal
parts at concrete inputs. -/
theorem C9_amended_padding_witness :
    3 ≤ ([1, 30, 0] : List Nat).length ∧
    ("1_30", [1, 30]) ∈ same_major_filter [("1_30", [1, 30])] [1, 30, 5] := by
  constructor
  · exact C9_amended_padding.1 [("1_30_0", [1, 30, 0])] [1, 30, 5]
      ("1_30_0", [1, 30, 0]) (by decide)
  · exact C9_amended_padding.2.1 [("1_30", [1, 30])] [1, 30, 5]
      ("1_30", [1, 30]) (by decide) (by decide) (by decide)

end SchemaRegistry

namespace OtgClient

/-- Per-flow metric record seen by the verification poll; `frames_tx_rate`
is optional (the source guards it with `hasattr`) and its float value is
modelled as a rational. -/
structure FlowMetric where
  frames_tx_rate : Option ℚ
deriving DecidableEq

/-- Negation of the per-flow still-running test at client.py lines 341-350:
a flow counts as stopped unless it has a `frames_tx_rate` at or above the
threshold. -/
def flowStopped (threshold : ℚ) (f : FlowMetric) : Bool :=
  match f.frames_tx_rate with
  | some r => decide (r < threshold)
  | none => true

/-- One iteration body of `_verify_traffic_stopped` (client.py lines
323-358): `.error` models an exception while fetching metrics (caught and
retried); an empty flow-metrics list (or a missing `flow_metrics` attribute)
ends the poll successfully; otherwise every flow must be below the
threshold. -/
def pollIndicatesStopped (threshold : ℚ) (res : Except Unit (List FlowMetric)) : Bool :=
  match res with
  | .error _ => false
  | .ok flows => flows.isEmpty || flows.all (flowStopped threshold)

/-- Polling loop of `_verify_traffic_stopped`: poll `i` happens at elapsed
time `0.5 * i` with the metrics fetch modelled as instantaneous, so the
`while time.time() - start_time < timeout` loop runs for `fuel` iterations
and returns `false` once the fuel (the timeout) is exhausted. -/
def verifyLoop (fetch : Nat → Except Unit (List FlowMetric)) (threshold : ℚ) :
    Nat → Nat → Bool
  | _, 0 => false
  | i, fuel + 1 =>
    if pollIndicatesStopped threshold (fetch i) then true
    else verifyLoop fetch threshold (i + 1) fuel

/-- `OtgClient._verify_traffic_stopped` (client.py lines 308-361) with its
default timeout of 5 time-units, threshold 0.1 and poll interval 0.5: ten
polls at elapsed times 0.0, 0.5, .., 4.5. -/
def verify_traffic_stopped (fetch : Nat → Except Unit (List FlowMetric)) : Bool :=
  verifyLoop fetch (1 / 10) 0 10

theorem verifyLoop_iff (fetch : Nat → Except Unit (List FlowMetric)) (threshold : ℚ) :
    ∀ (fuel i : Nat), verifyLoop fetch threshold i fuel = true ↔
      ∃ j, j < fuel ∧ pollIndicatesStopped threshold (fetch (i + j)) = true := by
  intro fuel
  induction fuel with
  | zero =>
    intro i
    simp [verifyLoop]
  | succ n ih =>
    intro i
    cases h : pollIndicatesStopped threshold (fetch i) with
    | true =>
      constructor
      · intro _
        exact ⟨0, Nat.succ_pos n, by simpa using h⟩
      · intro _
        simp [verifyLoop, h]
    | false =>
      have hne : ¬(pollIndicatesStopped threshold (fetch i) = true) := by
        rw [h]; exact Bool.false_ne_true
      constructor
      · intro hv
        rw [show verifyLoop fetch threshold i (n + 1) =
            verifyLoop fetch threshold (i + 1) n by
          simp [verifyLoop, if_neg hne]] at hv
        rcases (ih (i + 1)).mp hv with ⟨j, hj, hp⟩
        refine ⟨j + 1, by omega, ?_⟩
        rw [show i + (j + 1) = i + 1 + j by omega]
        exact hp
      · rintro ⟨j, hj, hp⟩
        cases j with
        | zero => rw [Nat.add_zero] at hp; rw [hp] at h; cases h
        | succ k =>
          rw [show verifyLoop fetch threshold i (n + 1) =
              verifyLoop fetch threshold (i + 1) n by
            simp [verifyLoop, if_neg hne]]
          refine (ih (i + 1)).mpr ⟨k, by omega, ?_⟩
          rw [show i + 1 + k = i + (k + 1) by omega]
          exact hp

/-- C4: the post-stop verification poll succeeds exactly when one of its ten
polls (timeout 5 time-units, interval 0.5) observes no flow metrics or only
flows below the 0.1 threshold; it succeeds as soon as the first poll does
(without waiting out the timeout) — in particular immediately with no flow
metrics, or with a simulated rate of 0.0 on the first poll — and it returns
`false` only after all ten polls have failed, with no further retries. -/
theorem C4_verify_traffic_stopped :
    (∀ fetch, verify_traffic_stopped fetch = true ↔
        ∃ j, j < 10 ∧ pollIndicatesStopped (1 / 10) (fetch j) = true) ∧
    (∀ fetch, pollIndicatesStopped (1 / 10) (fetch 0) = true →
        verify_traffic_stopped fetch = true) ∧
    verify_traffic_stopped (fun _ => .ok []) = true ∧
    verify_traffic_stopped (fun _ => .ok [⟨some 0⟩]) = true ∧
    verify_traffic_stopped (fun _ => .ok [⟨some 1⟩]) = false := by
  refine ⟨?_, ?_, ?_, ?_, ?_⟩
  · intro fetch
    simpa [verify_traffic_stopped] using verifyLoop_iff fetch (1 / 10) 10 0
  · intro fetch h
    exact (verifyLoop_iff fetch (1 / 10) 10 0).mpr ⟨0, by omega, by simpa using h⟩
  · rfl
  · refine (verifyLoop_iff (fun _ => .ok [⟨some 0⟩]) (1 / 10) 10 0).mpr
      ⟨0, by omega, ?_⟩
    norm_num [pollIndicatesStopped, flowStopped]
  · cases hv : verify_traffic_stopped (fun _ => .ok [⟨some 1⟩]) with
    | false => rfl
    | true =>
      exfalso
      obtain ⟨j, hj, hp⟩ :=
        (verifyLoop_iff (fun _ => .ok [⟨some 1⟩]) (1 / 10) 10 0).mp hv
      norm_num [pollIndicatesStopped, flowStopped] at hp

/-- Closed witness for `C4_verify_traffic_stopped`, discharging the
first-poll hypothesis with a zero-rate flow. -/
theorem C4_verify_traffic_stopped_witness :
    verify_traffic_stopped (fun _ => .ok [⟨some 0⟩, ⟨none⟩]) = true := by
  refine C4_verify_traffic_stopped.2.1 (fun _ => .ok [⟨some 0⟩, ⟨none⟩]) ?_
  norm_num [pollIndicatesStopped, flowStopped]

/-- Result payload of a `ControlResponse` as the source builds it: a
verification flag on the success path of `stop_traffic`, an error detail on
exception paths. -/
inductive ControlResult where
  | verified (b : Bool)
  | errorDetail
deriving DecidableEq

/-- `ControlResponse` (models/models.py lines 40-50) restricted to the fields
the claims mention. -/
structure ControlResponse where
  status : String
  action : String
  result : Option ControlResult
deriving DecidableEq

/-- Abstract outcome model of the snappi handle for the stop-traffic
strategies: each field tells whether the corresponding strategy helper in
client.py completes without raising (`true`) or raises (`false`); `fetch`
gives the successive flow-metric fetch outcomes for the verification poll. -/
structure StopApi where
  stop_transmit_ok : Bool
  transmit_state_ok : Bool
  control_state_ok : Bool
  set_flow_transmit_ok : Bool
  fetch : Nat → Except Unit (List FlowMetric)

/-- The ordered `methods` list of `_stop_traffic` (client.py lines 223-228):
direct stop, transmit-state, control-state, set-flow-transmit. -/
def stop_methods (api : StopApi) : List Bool :=
  [api.stop_transmit_ok, api.transmit_state_ok, api.control_state_ok,
    api.set_flow_transmit_ok]

/-- The `for method in methods` loop of `_stop_traffic` (lines 230-240): the
first non-raising strategy ends the loop and its success is followed by the
verification poll; when every strategy raises the loop falls through. -/
def stopLoop (api : StopApi) : List Bool → Bool
  | [] => false
  | ok :: rest => if ok then verify_traffic_stopped api.fetch else stopLoop api rest

/-- `OtgClient._stop_traffic` (client.py lines 211-240): returns the
verification result after the first working strategy, and `False` — without
raising — when all strategies raise. -/
def stop_traffic_internal (api : StopApi) : Bool :=
  stopLoop api (stop_methods api)

/-- `OtgClient.stop_traffic` (client.py lines 700-729): `connect_ok` tells
whether `_get_api_client` succeeds; an exception there is caught and becomes
an error response; `_stop_traffic` itself never raises. -/
def stop_traffic (connect_ok : Bool) (api : StopApi) : ControlResponse :=
  if connect_ok then
    { status := "success", action := "traffic_generation",
      result := some (.verified (stop_traffic_internal api)) }
  else
    { status := "error", action := "traffic_generation", result := some .errorDetail }

/-- C2 counterexample: when every stop strategy raises, `_stop_traffic`
returns `False` instead of raising an `AllStrategiesExhausted`-style error,
and the public `stop_traffic` reports `status = "success"` with
`verified = false` — total exhaustion does not surface as an error result. -/
theorem C2_counterexample :
    stop_traffic_internal ⟨false, false, false, false, fun _ => .ok []⟩ = false ∧
    stop_traffic true ⟨false, false, false, false, fun _ => .ok []⟩ =
      { status := "success", action := "traffic_generation",
        result := some (.verified false) } := by
  exact ⟨rfl, rfl⟩

/-- C2 amended: if every strategy in the stop-traffic fallback chain raises,
`_stop_traffic` returns `False` without raising, and the public
`stop_traffic` returns a success-status response carrying
`verified = false`; total exhaustion is reported through the verification
flag, not as an error result. -/
theorem C2_amended_stop_exhaustion (api : StopApi)
    (h1 : api.stop_transmit_ok = false) (h2 : api.transmit_state_ok = false)
    (h3 : api.control_state_ok = false) (h4 : api.set_flow_transmit_ok = false) :
    stop_traffic_internal api = false ∧
    stop_traffic true api =
      { status := "success", action := "traffic_generation",
        result := some (.verified false) } := by
  have hint : stop_traffic_internal api = false := by
    simp [stop_traffic_internal, stop_methods, stopLoop, h1, h2, h3, h4]
  exact ⟨hint, by simp [stop_traffic, hint]⟩

/-- Closed witness for `C2_amended_stop_exhaustion` at a concrete handle
whose metric fetches always raise. -/
theorem C2_amended_stop_exhaustion_witness :
    stop_traffic_internal ⟨false, false, false, false, fun _ => .error ()⟩ = false ∧
    stop_traffic true ⟨false, false, false, false, fun _ => .error ()⟩ =
      { status := "success", action := "traffic_generation",
        result := some (.verified false) } :=
  C2_amended_stop_exhaustion ⟨false, false, false, false, fun _ => .error ()⟩
    rfl rfl rfl rfl

/-- Nested attribute and constant availability of the object returned by
`api.control_state()` as `_start_traffic_control_state` (client.py lines
185-209) probes it, plus the outcome of the final `set_control_state`
call. -/
structure StartControlState where
  has_traffic : Bool
  has_flow_transmit : Bool
  has_START : Bool
  set_control_state_ok : Bool
deriving DecidableEq

/-- Abstract outcome model of the handle for start-traffic: the `has_*`
fields mirror the `hasattr` probes of `_start_traffic` (client.py lines
173-179), the `*_ok` fields whether the corresponding call completes
without raising. -/
structure StartApi where
  has_start_transmit : Bool
  start_transmit_ok : Bool
  has_set_flow_transmit : Bool
  set_flow_transmit_ok : Bool
  has_control_state : Bool
  cs : StartControlState
deriving DecidableEq

/-- Exceptions the start/capture dispatch code can raise: a raised call or
missing nested attribute, or `NotImplementedError` when no method at all is
available. -/
inductive StartError where
  | strategyRaised
  | attributeMissing
  | notImplemented
deriving DecidableEq

/-- `OtgClient._start_traffic_control_state` (client.py lines 185-209):
raises on a missing `traffic` or `flow_transmit` attribute; the applied
state value falls back to the literal `"start"` when the symbolic `START`
constant is absent; returns the state value used. -/
def start_traffic_control_state (c : StartControlState) : Except StartError String :=
  if !c.has_traffic then .error .attributeMissing
  else if !c.has_flow_transmit then .error .attributeMissing
  else
    let stateVal := if c.has_START then "START" else "start"
    if c.set_control_state_ok then .ok stateVal else .error .strategyRaised

/-- `OtgClient._start_traffic` (client.py lines 164-183): a pure
`hasattr` dispatch — the first present method is called and any exception it
raises propagates; there is no fallback to a later strategy once a method is
selected, and `NotImplementedError` is raised when none is present. -/
def start_traffic_internal (api : StartApi) : Except StartError Unit :=
  if api.has_start_transmit then
    if api.start_transmit_ok then .ok () else .error .strategyRaised
  else if api.has_set_flow_transmit then
    if api.set_flow_transmit_ok then .ok () else .error .strategyRaised
  else if api.has_control_state then
    (start_traffic_control_state api.cs).map (fun _ => ())
  else .error .notImplemented

/-- `OtgClient.start_traffic` (client.py lines 673-698). -/
def start_traffic (connect_ok : Bool) (api : StartApi) : ControlResponse :=
  if !connect_ok then
    { status := "error", action := "traffic_generation", result := some .errorDetail }
  else
    match start_traffic_internal api with
    | .ok _ => { status := "success", action := "traffic_generation", result := none }
    | .error _ =>
      { status := "error", action := "traffic_generation", result := some .errorDetail }

/-- C3 counterexample: with `start_transmit` present but raising while
`set_flow_transmit` is present and would succeed, `_start_traffic` raises
and the public operation reports an error — the next strategy in the list is
not tried, refuting the claimed raise-triggered fallback and the claim that
the operation fails only when every strategy has raised. -/
theorem C3_counterexample :
    start_traffic_internal
        ⟨true, false, true, true, true, ⟨true, true, true, true⟩⟩ =
      .error .strategyRaised ∧
    start_traffic true ⟨true, false, true, true, true, ⟨true, true, true, true⟩⟩ =
      { status := "error", action := "traffic_generation",
        result := some .errorDetail } ∧
    (⟨true, false, true, true, true, ⟨true, true, true, true⟩⟩ :
        StartApi).set_flow_transmit_ok = true := by
  exact ⟨rfl, rfl, rfl⟩

/-- C3 amended: `_start_traffic` selects exactly one strategy by capability
presence, probed in the order direct transmit-start, set-flow-transmit,
control-state choice call; the selected strategy's exception propagates
with no fallback, and the operation fails either when the selected strategy
raises or — distinctly — with `NotImplementedError` when no capability is
present at all. -/
theorem C3_amended_start_dispatch :
    (∀ api : StartApi, api.has_start_transmit = true →
        start_traffic_internal api =
          (if api.start_transmit_ok then .ok () else .error .strategyRaised)) ∧
    (∀ api : StartApi, api.has_start_transmit = false →
        api.has_set_flow_transmit = true →
        start_traffic_internal api =
          (if api.set_flow_transmit_ok then .ok () else .error .strategyRaised)) ∧
    (∀ api : StartApi, api.has_start_transmit = false →
        api.has_set_flow_transmit = false → api.has_control_state = true →
        start_traffic_internal api =
          (start_traffic_control_state api.cs).map (fun _ => ())) ∧
    (∀ api : StartApi, api.has_start_transmit = false →
        api.has_set_flow_transmit = false → api.has_control_state = false →
        start_traffic_internal api = .error .notImplemented) ∧
    (∀ (c : Bool) (api : StartApi),
        (start_traffic c api).status = "success" ↔
          c = true ∧ start_traffic_internal api = .ok ()) := by
  refine ⟨?_, ?_, ?_, ?_, ?_⟩
  · intro api h
    simp [start_traffic_internal, h]
  · intro api h1 h2
    simp [start_traffic_internal, h1, h2]
  · intro api h1 h2 h3
    simp [start_traffic_internal, h1, h2, h3]
  · intro api h1 h2 h3
    simp [start_traffic_internal, h1, h2, h3]
  · intro c api
    cases c with
    | false => simp [start_traffic]
    | true =>
      cases hr : start_traffic_internal api with
      | ok u => simp [start_traffic, hr]
      | error e => simp [start_traffic, hr]

/-- Closed witness for `C3_amended_start_dispatch`, instantiating each
dispatch case at a concrete handle. -/
theorem C3_amended_start_dispatch_witness :
    start_traffic_internal ⟨true, true, false, false, false, ⟨false, false, false, false⟩⟩ =
      .ok () ∧
    start_traffic_internal ⟨false, true, true, false, false, ⟨false, false, false, false⟩⟩ =
      .error .strategyRaised ∧
    start_traffic_internal ⟨false, true, false, false, true, ⟨true, true, true, true⟩⟩ =
      (start_traffic_control_state ⟨true, true, true, true⟩).map (fun _ => ()) ∧
    start_traffic_internal ⟨false, true, false, true, false, ⟨true, true, true, true⟩⟩ =
      .error .notImplemented := by
  refine ⟨?_, ?_, ?_, ?_⟩
  · have h := C3_amended_start_dispatch.1
      ⟨true, true, false, false, false, ⟨false, false, false, false⟩⟩ rfl
    simpa using h
  · have h := C3_amended_start_dispatch.2.1
      ⟨false, true, true, false, false, ⟨false, false, false, false⟩⟩ rfl rfl
    simpa using h
  · exact C3_amended_start_dispatch.2.2.1
      ⟨false, true, false, false, true, ⟨true, true, true, true⟩⟩ rfl rfl rfl
  · exact C3_amended_start_dispatch.2.2.2.1
      ⟨false, true, false, true, false, ⟨true, true, true, true⟩⟩ rfl rfl rfl

end OtgClient

/-- Abstract outcome model of the snappi handle for capture operations.
`methods` is the advertised method-name list from `dir(api)` that the
probing helpers in client.py consult; each `*_ok` field tells whether the
corresponding call sequence completes without raising. -/
structure CaptureApi where
  methods : List String
  capture_state_start_ok : Bool
  capture_state_stop_ok : Bool
  start_capture_ports_ok : Bool
  stop_capture_ports_ok : Bool
  ctrl_start_ok : Bool
  ctrl_stop_ok : Bool
  port_capture_start_ok : Bool
  port_capture_stop_ok : Bool
  result_warnings : List String
deriving DecidableEq

/-- Result dictionary returned by the client_capture.py module functions. -/
structure CaptureModuleResult where
  status : String
  warnings : List String
  isError : Bool
deriving DecidableEq

namespace ClientCapture

/-- `client_capture.start_capture` (client_capture.py lines 16-62): one
single control-state strategy — choice = PORT, port.choice = CAPTURE,
capture.state = START, capture.port_names = list — with no capability
probing; any exception anywhere in the sequence yields an error-status
dictionary.  `port_capture_start_ok` is the outcome of that whole
sequence. -/
def start_capture (api : CaptureApi) (port_names : List String) : CaptureModuleResult :=
  if api.port_capture_start_ok then
    { status := "success", warnings := api.result_warnings, isError := false }
  else
    { status := "error", warnings := [], isError := true }

/-- `client_capture.stop_capture` (client_capture.py lines 65-111): the same
single control-state strategy with capture.state = STOP. -/
def stop_capture (api : CaptureApi) (port_names : List String) : CaptureModuleResult :=
  if api.port_capture_stop_ok then
    { status := "success", warnings := api.result_warnings, isError := false }
  else
    { status := "error", warnings := [], isError := true }

/-- Result dictionary of `client_capture.get_capture`. -/
structure GetCaptureResult where
  status : String
  file_path : Option String
  capture_id : Option String
deriving DecidableEq

/-- Filename resolution of `client_capture.get_capture` (lines 142-148):
generate `capture_<port>_<8-hex>.pcap` when no filename is supplied, append
`.pcap` when the supplied one lacks the suffix. -/
def resolveCaptureFilename (port_name : String) (randHex : String) :
    Option String → String
  | none => "capture_" ++ port_name ++ "_" ++ randHex ++ ".pcap"
  | some f => if (".pcap".toList).isSuffixOf f.toList then f else f ++ ".pcap"

/-- `client_capture.get_capture` (client_capture.py lines 114-183):
`fetch_ok` covers the capture_request/get_capture/file-write sequence;
`randHex` stands for the random `uuid` fragment; the output directory
defaults to `/tmp`. -/
def get_capture (fetch_ok : Bool) (port_name : String) (output_dir : Option String)
    (filename : Option String) (randHex : String) : GetCaptureResult :=
  let dir := output_dir.getD "/tmp"
  let fname := resolveCaptureFilename port_name randHex filename
  if fetch_ok then
    { status := "success", file_path := some (dir ++ "/" ++ fname),
      capture_id := some fname }
  else
    { status := "error", file_path := none, capture_id := none }

end ClientCapture

namespace OtgClient

/-- `OtgClient._start_capture` (client.py lines 385-447): the capability
probing dispatch — the first advertised method name among `capture_state`,
`start_capture`, `control_state` selects the strategy; a raise inside the
selected branch propagates, and `NotImplementedError` is raised when none
matches.  The nested `hasattr` guards of the control-state branch skip
silently, so that branch's outcome is the `set_control_state` call's. -/
def start_capture_probing (api : CaptureApi) (port_names : List String) :
    Except StartError Unit :=
  if api.methods.contains "capture_state" then
    if api.capture_state_start_ok then .ok () else .error .strategyRaised
  else if api.methods.contains "start_capture" then
    if api.start_capture_ports_ok then .ok () else .error .strategyRaised
  else if api.methods.contains "control_state" then
    if api.ctrl_start_ok then .ok () else .error .strategyRaised
  else .error .notImplemented

/-- `OtgClient._stop_capture` (client.py lines 449-508): the mirrored
probing dispatch over `capture_state`, `stop_capture`, `control_state`. -/
def stop_capture_probing (api : CaptureApi) (port_names : List String) :
    Except StartError Unit :=
  if api.methods.contains "capture_state" then
    if api.capture_state_stop_ok then .ok () else .error .strategyRaised
  else if api.methods.contains "stop_capture" then
    if api.stop_capture_ports_ok then .ok () else .error .strategyRaised
  else if api.methods.contains "control_state" then
    if api.ctrl_stop_ok then .ok () else .error .strategyRaised
  else .error .notImplemented

/-- `CaptureResponse` (models/models.py lines 29-37) restricted to the
claim-relevant fields. -/
structure CaptureResponse where
  status : String
  port : String
  file_path : Option String
deriving DecidableEq

/-- `OtgClient.start_capture` (client.py lines 731-778): computes the
response port (first of the list, `""` when empty), then delegates to
`ClientCapture.start_capture`; `connect_ok` models `_get_api_client` and any
exception is caught into an error response. -/
def start_capture (connect_ok : Bool) (api : CaptureApi) (port_name : List String) :
    CaptureResponse :=
  let response_port := port_name.headD ""
  if !connect_ok then
    { status := "error", port := response_port, file_path := none }
  else
    let result := ClientCapture.start_capture api port_name
    if result.status == "success" then
      { status := "success", port := response_port, file_path := none }
    else
      { status := "error", port := response_port, file_path := none }

/-- `OtgClient.stop_capture` (client.py lines 780-830). -/
def stop_capture (connect_ok : Bool) (api : CaptureApi) (port_name : List String) :
    CaptureResponse :=
  let response_port := port_name.headD ""
  if !connect_ok then
    { status := "error", port := response_port, file_path := none }
  else
    let result := ClientCapture.stop_capture api port_name
    if result.status == "success" then
      { status := "success", port := response_port, file_path := none }
    else
      { status := "error", port := response_port, file_path := none }

/-- `OtgClient.get_capture` (client.py lines 832-885): delegates to
`ClientCapture.get_capture` and copies its file path on success. -/
def get_capture (connect_ok fetch_ok : Bool) (port_name : String)
    (output_dir filename : Option String) (randHex : String) : CaptureResponse :=
  if !connect_ok then
    { status := "error", port := port_name, file_path := none }
  else
    let r := ClientCapture.get_capture fetch_ok port_name output_dir filename randHex
    if r.status == "success" then
      { status := "success", port := port_name, file_path := r.file_path }
    else
      { status := "error", port := port_name, file_path := none }

/-- C5 counterexample: a handle advertising only `capture_state`, whose
capture-state call works, but failing the PORT/CAPTURE control-state
sequence.  Under the claimed probe order the first probe matches and does
not raise — as the internal probing helper confirms — yet the public
operation returns an error, because it delegates to the capture module's
single control-state strategy and never probes capability names. -/
theorem C5_counterexample :
    start_capture_probing
        ⟨["capture_state"], true, true, true, true, true, true, false, false, []⟩
        ["p1"] = .ok () ∧
    start_capture true
        ⟨["capture_state"], true, true, true, true, true, true, false, false, []⟩
        ["p1"] =
      { status := "error", port := "p1", file_path := none } := by
  exact ⟨rfl, rfl⟩

/-- C5 amended: the public start/stop-capture operations perform no
capability probing — their status depends only on connection success and the
single PORT/CAPTURE control-state sequence of the capture module, and is
unchanged under any alteration of the advertised method names; the ordered
three-probe dispatch, with its distinct no-matching-probe failure, exists
only in the internal `_start_capture`/`_stop_capture` helpers, which the
public operations do not call. -/
theorem C5_amended_capture_no_probing :
    (∀ (c : Bool) (api : CaptureApi) (ports : List String),
        (start_capture c api ports).status =
          if c && api.port_capture_start_ok then "success" else "error") ∧
    (∀ (c : Bool) (api : CaptureApi) (ports ms : List String),
        start_capture c { api with methods := ms } ports =
          start_capture c api ports) ∧
    (∀ (c : Bool) (api : CaptureApi) (ports : List String),
        (stop_capture c api ports).status =
          if c && api.port_capture_stop_ok then "success" else "error") ∧
    (∀ (c : Bool) (api : CaptureApi) (ports ms : List String),
        stop_capture c { api with methods := ms } ports =
          stop_capture c api ports) ∧
    (∀ (api : CaptureApi) (ports : List String),
        "capture_state" ∉ api.methods →
        "start_capture" ∉ api.methods →
        "control_state" ∉ api.methods →
        start_capture_probing api ports = .error .notImplemented) := by
  refine ⟨?_, ?_, ?_, ?_, ?_⟩
  · intro c api ports
    cases c with
    | false => rfl
    | true =>
      cases h : api.port_capture_start_ok with
      | false => simp [start_capture, ClientCapture.start_capture, h]
      | true => simp [start_capture, ClientCapture.start_capture, h]
  · intro c api ports ms
    cases c with
    | false => rfl
    | true => simp [start_capture, ClientCapture.start_capture]
  · intro c api ports
    cases c with
    | false => rfl
    | true =>
      cases h : api.port_capture_stop_ok with
      | false => simp [stop_capture, ClientCapture.stop_capture, h]
      | true => simp [stop_capture, ClientCapture.stop_capture, h]
  · intro c api ports ms
    cases c with
    | false => rfl
    | true => simp [stop_capture, ClientCapture.stop_capture]
  · intro api ports h1 h2 h3
    simp [start_capture_probing, h1, h2, h3]

/-- Closed witness for `C5_amended_capture_no_probing`, discharging the
no-matching-probe hypotheses at a handle advertising nothing. -/
theorem C5_amended_capture_no_probing_witness :
    start_capture_probing ⟨[], true, true, true, true, true, true, true, true, []⟩ [] =
      .error .notImplemented :=
  C5_amended_capture_no_probing.2.2.2.2
    ⟨[], true, true, true, true, true, true, true, true, []⟩ []
    (by decide) (by decide) (by decide)

end OtgClient

namespace Config

/-- Raw JSON value of one target entry as far as `load_config_file`
validation observes it: whether the entry is a dict carrying a `ports` key,
and which unrecognized top-level keys it carries.  Pydantic's
`extra="forbid"` on `TargetConfig` (config.py line 73) raises
`ValidationError` exactly when an unrecognized key is present. -/
structure RawTarget where
  is_dict : Bool
  has_ports : Bool
  extra_keys : List String
deriving DecidableEq

/-- Parsed JSON of a configuration file as far as `load_config_file`
observes it. -/
structure RawConfig where
  has_targets : Bool
  targets : List (String × RawTarget)
deriving DecidableEq

/-- Exceptions `Config.load_config_file` (config.py lines 119-201) can
raise and re-raise: missing file, JSON decode error, missing top-level
`targets` property. -/
inductive LoadError where
  | fileNotFound
  | jsonDecode
  | missingTargets
deriving DecidableEq

/-- Acceptance test applied per target by `load_config_file`: a dict with a
`ports` key whose pydantic validation finds no unrecognized top-level key. -/
def targetAccepted (t : RawTarget) : Bool :=
  t.is_dict && t.has_ports && t.extra_keys.isEmpty

/-- Body of the `for hostname, target_data in config_data["targets"].items()`
loop of `load_config_file` (config.py lines 152-176): skip the entry when it
is not a dict with `ports` or when pydantic validation raises, else keep
it. -/
def loadStep (acc : List (String × RawTarget)) (ht : String × RawTarget) :
    List (String × RawTarget) :=
  if !ht.2.is_dict || !ht.2.has_ports then acc
  else if !ht.2.extra_keys.isEmpty then acc
  else acc ++ [ht]

/-- `Config.load_config_file` (config.py lines 119-201).  A target entry
that is not a dict with `ports`, or whose pydantic validation fails because
of an unrecognized top-level key, is logged and skipped with `continue`;
only a missing file, invalid JSON, or a missing top-level `targets` key is
raised to the caller. -/
def load_config_file (file_exists : Bool) (parsed : Except Unit RawConfig) :
    Except LoadError (List (String × RawTarget)) :=
  if !file_exists then .error .fileNotFound
  else
    match parsed with
    | .error _ => .error .jsonDecode
    | .ok cfg =>
      if !cfg.has_targets then .error .missingTargets
      else .ok (cfg.targets.foldl loadStep [])

theorem loadStep_eq (acc : List (String × RawTarget)) (ht : String × RawTarget) :
    loadStep acc ht = if targetAccepted ht.2 then acc ++ [ht] else acc := by
  unfold loadStep targetAccepted
  cases h1 : ht.2.is_dict <;> cases h2 : ht.2.has_ports <;>
    cases h3 : ht.2.extra_keys.isEmpty <;> simp [h1, h2, h3]

theorem load_foldl_eq_filter (l : List (String × RawTarget)) :
    ∀ acc : List (String × RawTarget),
      l.foldl loadStep acc = acc ++ l.filter (fun ht => targetAccepted ht.2) := by
  induction l with
  | nil => intro acc; simp
  | cons ht rest ih =>
    intro acc
    rw [List.foldl_cons, loadStep_eq, List.filter_cons]
    cases hacc : targetAccepted ht.2 with
    | true => simp [ih]
    | false => simp [ih]

/-- C6 counterexample: a configuration file whose only target carries the
unrecognized top-level key `apiVersion` loads successfully with that target
skipped — the result is an empty target set, not an `InvalidConfig`-style
load failure. -/
theorem C6_counterexample :
    load_config_file true
        (.ok { has_targets := true,
               targets := [("192.168.1.1:8443",
                 { is_dict := true, has_ports := true,
                   extra_keys := ["apiVersion"] })] }) =
      .ok [] := by
  rfl

/-- C6 amended: a target carrying an unrecognized top-level field fails
per-target pydantic validation and is skipped with a logged error — it is
excluded from the loaded targets while loading continues and succeeds; only
a missing configuration file, invalid JSON, or a missing top-level `targets`
property is fatal at load time. -/
theorem C6_amended_extra_field_skipped :
    (∀ (cfg : RawConfig) (res : List (String × RawTarget)),
        load_config_file true (.ok cfg) = .ok res →
        ∀ p ∈ res, p ∈ cfg.targets ∧ p.2.extra_keys = []) ∧
    (∀ cfg : RawConfig, cfg.has_targets = true →
        ∃ res, load_config_file true (.ok cfg) = .ok res) ∧
    (∀ parsed, load_config_file false parsed = .error .fileNotFound) ∧
    load_config_file true (.error ()) = .error .jsonDecode ∧
    (∀ cfg : RawConfig, cfg.has_targets = false →
        load_config_file true (.ok cfg) = .error .missingTargets) := by
  refine ⟨?_, ?_, ?_, ?_, ?_⟩
  · intro cfg res hload p hp
    by_cases ht : cfg.has_targets
    · simp only [load_config_file, ht, Bool.not_true, Bool.false_eq_true,
        if_false] at hload
      rw [load_foldl_eq_filter] at hload
      obtain rfl : cfg.targets.filter (fun ht => targetAccepted ht.2) = res := by
        simpa using hload
      have hmem := List.mem_filter.mp hp
      refine ⟨hmem.1, ?_⟩
      have := hmem.2
      simp only [targetAccepted, Bool.and_eq_true, List.isEmpty_iff] at this
      exact this.2
    · simp [load_config_file, ht] at hload
  · intro cfg ht
    exact ⟨cfg.targets.foldl loadStep [], by simp [load_config_file, ht]⟩
  · intro parsed
    rfl
  · rfl
  · intro cfg ht
    simp [load_config_file, ht]

/-- Closed witness for `C6_amended_extra_field_skipped`: a mixed
configuration with one valid and one extra-keyed target loads with exactly
the valid one kept. -/
theorem C6_amended_extra_field_skipped_witness :
    ("good", (⟨true, true, []⟩ : RawTarget)) ∈
        [("bad", (⟨true, true, ["apiVersion"]⟩ : RawTarget)),
         ("good", (⟨true, true, []⟩ : RawTarget))] ∧
    (⟨true, true, []⟩ : RawTarget).extra_keys = [] := by
  exact C6_amended_extra_field_skipped.1
    ⟨true, [("bad", ⟨true, true, ["apiVersion"]⟩), ("good", ⟨true, true, []⟩)]⟩
    [("good", ⟨true, true, []⟩)]
    (by rfl)
    ("good", ⟨true, true, []⟩)
    (by simp)

end Config

namespace OtgClient

/-- State of the `OtgClient` dataclass relevant to the cache claims:
`api_clients` is the target-to-handle association (a Python dict with
unique keys); handles are identified by construction order, `next_handle`
being the id the next construction receives — this models Python object
identity of the snappi handles. -/
structure ClientState where
  api_clients : List (String × Nat)
  next_handle : Nat
deriving DecidableEq

/-- Python dict lookup, `target in self.api_clients` /
`self.api_clients[target]`. -/
def lookupClient : List (String × Nat) → String → Option Nat
  | [], _ => none
  | (k, v) :: rest, t => if k = t then some v else lookupClient rest t

/-- `OtgClient._get_api_client` (client.py lines 73-105): return the cached
handle when present; otherwise construct a new handle (`snappi.api` plus
capability discovery — `connect_ok target = false` models a raise there, in
which case nothing is cached), cache it and return it. -/
def get_api_client (connect_ok : String → Bool) (target : String) (s : ClientState) :
    Option Nat × ClientState :=
  match lookupClient s.api_clients target with
  | some h => (some h, s)
  | none =>
    if connect_ok target then
      (some s.next_handle,
        { api_clients := s.api_clients ++ [(target, s.next_handle)],
          next_handle := s.next_handle + 1 })
    else (none, s)

/-- The `self.api_clients.clear()` call issued first by
`get_available_targets` (client.py line 952). -/
def clear_cache (s : ClientState) : ClientState :=
  { s with api_clients := [] }

/-- Report entry built per target by `get_available_targets` (client.py
lines 960-997), ports omitted: availability, the detected version, and the
error flags. -/
structure TargetReport where
  available : Bool
  apiVersion : Option String
  apiVersionError : Bool
  error : Bool
deriving DecidableEq

/-- Per-target body of the `get_available_targets` loop (client.py lines
957-997): try `_get_api_client` (recording an unreachable target on a
raise); when reachable, fetch the version report, `version_of t = none`
modelling a raise recorded as an apiVersionError. -/
def gatStep (connect_ok : String → Bool) (version_of : String → Option String)
    (acc : List (String × TargetReport) × ClientState) (t : String) :
    List (String × TargetReport) × ClientState :=
  match get_api_client connect_ok t acc.2 with
  | (some _, s') =>
    match version_of t with
    | some v => (acc.1 ++ [(t, ⟨true, some v, false, false⟩)], s')
    | none => (acc.1 ++ [(t, ⟨true, none, true, false⟩)], s')
  | (none, s') => (acc.1 ++ [(t, ⟨false, none, false, true⟩)], s')

/-- `OtgClient.get_available_targets` (client.py lines 931-1006): clear the
client cache first, then process every configured target.  The report is a
plain mapping keyed by target name — it has no status field. -/
def get_available_targets (connect_ok : String → Bool)
    (version_of : String → Option String) (targets : List String) (s : ClientState) :
    List (String × TargetReport) × ClientState :=
  targets.foldl (gatStep connect_ok version_of) ([], clear_cache s)

/-- Cache invariant: target keys are distinct (a Python dict) and every
cached handle id was constructed before the next fresh id. -/
def CacheInv (s : ClientState) : Prop :=
  (s.api_clients.map Prod.fst).Nodup ∧ ∀ p ∈ s.api_clients, p.2 < s.next_handle

theorem lookupClient_eq_none (l : List (String × Nat)) (t : String) :
    lookupClient l t = none ↔ t ∉ l.map Prod.fst := by
  induction l with
  | nil => simp [lookupClient]
  | cons p rest ih =>
    obtain ⟨k, v⟩ := p
    by_cases hk : k = t
    · subst hk; simp [lookupClient]
    · have h2 : t ≠ k := fun he => hk he.symm
      simp [lookupClient, hk, ih, h2]

theorem lookupClient_append_self (l : List (String × Nat)) (t : String) (v : Nat)
    (h : lookupClient l t = none) :
    lookupClient (l ++ [(t, v)]) t = some v := by
  induction l with
  | nil => simp [lookupClient]
  | cons p rest ih =>
    obtain ⟨k, w⟩ := p
    by_cases hk : k = t
    · simp [lookupClient, hk] at h
    · simp only [lookupClient, List.cons_append, if_neg hk] at h ⊢
      exact ih h

/-- C7: a repeated `_get_api_client` call for the same target returns the
same cached handle and leaves the state unchanged; the cache keeps at most
one handle per target, all with ids below the fresh counter; `clear_cache`
drops every cached handle, so the next call constructs a handle id that no
previously cached entry had; and `get_available_targets` is insensitive to
the prior cache contents because it clears them first. -/
theorem C7_client_cache :
    (∀ (co : String → Bool) (t : String) (s : ClientState) (h : Nat)
        (s' : ClientState),
        get_api_client co t s = (some h, s') →
        get_api_client co t s' = (some h, s')) ∧
    (∀ (co : String → Bool) (t : String) (s : ClientState),
        CacheInv s → CacheInv (get_api_client co t s).2) ∧
    (∀ s : ClientState, (clear_cache s).api_clients = [] ∧ CacheInv (clear_cache s)) ∧
    (∀ (co : String → Bool) (t : String) (s : ClientState),
        CacheInv s → co t = true →
        (get_api_client co t (clear_cache s)).1 = some s.next_handle ∧
        ∀ p ∈ s.api_clients, p.2 ≠ s.next_handle) ∧
    (∀ (co : String → Bool) (vo : String → Option String) (ts : List String)
        (s1 s2 : ClientState), s1.next_handle = s2.next_handle →
        get_available_targets co vo ts s1 = get_available_targets co vo ts s2) := by
  refine ⟨?_, ?_, ?_, ?_, ?_⟩
  · intro co t s h s' hcall
    unfold get_api_client at hcall ⊢
    cases hl : lookupClient s.api_clients t with
    | some h0 =>
      rw [hl] at hcall
      simp only [Prod.mk.injEq, Option.some.injEq] at hcall
      obtain ⟨rfl, rfl⟩ := hcall
      rw [hl]
    | none =>
      rw [hl] at hcall
      cases hc : co t with
      | true =>
        rw [hc] at hcall
        simp only [if_true] at hcall
        simp only [Prod.mk.injEq, Option.some.injEq] at hcall
        obtain ⟨rfl, rfl⟩ := hcall
        have hl2 : lookupClient (s.api_clients ++ [(t, s.next_handle)]) t =
            some s.next_handle := lookupClient_append_self _ _ _ hl
        rw [hl2]
      | false =>
        rw [hc] at hcall
        simp at hcall
  · intro co t s hinv
    cases hl : lookupClient s.api_clients t with
    | some h0 =>
      simpa [get_api_client, hl] using hinv
    | none =>
      cases hc : co t with
      | false => simpa [get_api_client, hl, hc] using hinv
      | true =>
        have ht : t ∉ s.api_clients.map Prod.fst := (lookupClient_eq_none _ _).mp hl
        simp only [get_api_client, hl, hc, if_true]
        refine ⟨?_, ?_⟩
        · rw [List.map_append]
          refine List.Nodup.append hinv.1 (by simp) ?_
          intro a ha hb
          simp only [List.map_cons, List.map_nil, List.mem_singleton] at hb
          subst hb
          exact ht ha
        · intro p hp
          rw [List.mem_append] at hp
          rcases hp with hp | hp
          · exact Nat.lt_succ_of_lt (hinv.2 p hp)
          · rw [List.mem_singleton] at hp
            subst hp
            exact Nat.lt_succ_self _
  · intro s
    exact ⟨rfl, by simp [CacheInv, clear_cache], by simp [clear_cache]⟩
  · intro co t s hinv hc
    constructor
    · simp [get_api_client, clear_cache, lookupClient, hc]
    · intro p hp
      exact Nat.ne_of_lt (hinv.2 p hp)
  · intro co vo ts s1 s2 hn
    unfold get_available_targets
    have hcc : clear_cache s1 = clear_cache s2 := by
      cases s1; cases s2; simp_all [clear_cache]
    rw [hcc]

/-- Closed witness for `C7_client_cache`, instantiating the cached-call,
invariant-preservation and clear-then-reconnect parts at concrete states. -/
theorem C7_client_cache_witness :
    get_api_client (fun _ => true) "t" ⟨[("t", 0)], 1⟩ = (some 0, ⟨[("t", 0)], 1⟩) ∧
    CacheInv (get_api_client (fun _ => true) "t" ⟨[], 0⟩).2 ∧
    ((get_api_client (fun _ => true) "t"
        (clear_cache ⟨[("t", 0)], 1⟩)).1 = some 1 ∧
      ∀ p ∈ ([("t", 0)] : List (String × Nat)), p.2 ≠ 1) := by
  refine ⟨?_, ?_, ?_⟩
  · exact C7_client_cache.1 (fun _ => true) "t" ⟨[("t", 0)], 1⟩ 0 ⟨[("t", 0)], 1⟩
      (by decide)
  · exact C7_client_cache.2.1 (fun _ => true) "t" ⟨[], 0⟩ ⟨by decide, by decide⟩
  · exact C7_client_cache.2.2.2.1 (fun _ => true) "t" ⟨[("t", 0)], 1⟩
      ⟨by decide, by decide⟩ rfl

/-- `ConfigResponse` (models/models.py lines 15-20) restricted to status. -/
structure ConfigResponse where
  status : String
deriving DecidableEq

/-- `OtgClient.get_config` (client.py lines 644-671): the whole body is one
try/except — the client resolution or the device get/serialize sequence
raising (`op_ok = false`) yields an error-status response. -/
def get_config (connect_ok op_ok : Bool) : ConfigResponse :=
  if connect_ok && op_ok then { status := "success" } else { status := "error" }

/-- `OtgClient.set_config` (client.py lines 603-642), same try/except
shape. -/
def set_config (connect_ok op_ok : Bool) : ConfigResponse :=
  if connect_ok && op_ok then { status := "success" } else { status := "error" }

/-- `MetricsResponse` (models/models.py lines 23-26) restricted to status. -/
structure MetricsResponse where
  status : String
deriving DecidableEq

/-- `OtgClient.get_metrics` (client.py lines 1366-1448): the name-list
normalization cannot raise; client resolution and the device metrics
request can, caught into an error response. -/
def get_metrics (connect_ok op_ok : Bool)
    (flow_names port_names : Option (List String)) : MetricsResponse :=
  if connect_ok && op_ok then { status := "success" } else { status := "error" }

/-- `HealthStatus` (models/models.py lines 107-113) with per-target healthy
flags. -/
structure HealthStatus where
  status : String
  targets : List (String × Bool)
deriving DecidableEq

/-- `OtgClient.health` (client.py lines 1303-1364): check the one given
target or every configured one through the version endpoint; overall status
is success exactly when the checked set is nonempty and every member
responded. -/
def health (version_of : String → Option String) (target : Option String)
    (all_targets : List String) : HealthStatus :=
  let target_names := match target with
    | some t => [t]
    | none => all_targets
  let all_healthy := target_names.all (fun n => (version_of n).isSome)
  { status := if all_healthy && !target_names.isEmpty then "success" else "error",
    targets := target_names.map (fun n => (n, (version_of n).isSome)) }

theorem gatStep_keys (co : String → Bool) (vo : String → Option String)
    (acc : List (String × TargetReport) × ClientState) (t : String) :
    ((gatStep co vo acc t).1).map Prod.fst = acc.1.map Prod.fst ++ [t] := by
  unfold gatStep
  rcases hg : get_api_client co t acc.2 with ⟨res, s'⟩
  cases res with
  | some h => cases vo t <;> simp
  | none => simp

theorem gat_keys (co : String → Bool) (vo : String → Option String) :
    ∀ (ts : List String) (acc : List (String × TargetReport) × ClientState),
      ((ts.foldl (gatStep co vo) acc).1).map Prod.fst = acc.1.map Prod.fst ++ ts := by
  intro ts
  induction ts with
  | nil => intro acc; simp
  | cons t rest ih =>
    intro acc
    rw [List.foldl_cons, ih, gatStep_keys]
    simp

/-- C8 counterexample: the result of `get_available_targets` is keyed by the
configured target names — for the single target `192.168.1.1:8443` the
top-level keys are exactly that name, so the result carries no
`status` field, refuting the claim that every operation of the surface
returns a status-bearing structured result. -/
theorem C8_counterexample :
    ((get_available_targets (fun _ => true) (fun _ => some "1.30.0")
        ["192.168.1.1:8443"] ⟨[], 0⟩).1).map Prod.fst = ["192.168.1.1:8443"] ∧
    "status" ∉ ((get_available_targets (fun _ => true) (fun _ => some "1.30.0")
        ["192.168.1.1:8443"] ⟨[], 0⟩).1).map Prod.fst := by
  constructor
  · rfl
  · decide

/-- C8 amended: every exposed operation except `get_available_targets`
returns a structured result whose status is `success` or `error` for every
combination of internal outcomes, and none of them propagates an exception
(each is a total function of the abstracted outcomes with a catch-all error
branch); `get_available_targets` also never propagates, but returns a plain
mapping whose top-level keys are exactly the configured target names, with
no status field of its own. -/
theorem C8_amended_surface :
    (∀ c o, (get_config c o).status = "success" ∨ (get_config c o).status = "error") ∧
    (∀ c o, (set_config c o).status = "success" ∨ (set_config c o).status = "error") ∧
    (∀ c o fn pn, (get_metrics c o fn pn).status = "success" ∨
        (get_metrics c o fn pn).status = "error") ∧
    (∀ c api, (start_traffic c api).status = "success" ∨
        (start_traffic c api).status = "error") ∧
    (∀ c api, (stop_traffic c api).status = "success" ∨
        (stop_traffic c api).status = "error") ∧
    (∀ c api p, (start_capture c api p).status = "success" ∨
        (start_capture c api p).status = "error") ∧
    (∀ c api p, (stop_capture c api p).status = "success" ∨
        (stop_capture c api p).status = "error") ∧
    (∀ c f p od fn rh, (get_capture c f p od fn rh).status = "success" ∨
        (get_capture c f p od fn rh).status = "error") ∧
    (∀ vo t ts, (health vo t ts).status = "success" ∨
        (health vo t ts).status = "error") ∧
    (∀ co vo ts s, ((get_available_targets co vo ts s).1).map Prod.fst = ts) := by
  have hif : ∀ b : Bool, (if b then ("success" : String) else "error") = "success" ∨
      (if b then ("success" : String) else "error") = "error" := by
    intro b
    cases b
    · exact Or.inr rfl
    · exact Or.inl rfl
  refine ⟨?_, ?_, ?_, ?_, ?_, ?_, ?_, ?_, ?_, ?_⟩
  · intro c o
    cases h : (c && o) with
    | true => exact Or.inl (by simp [get_config, h])
    | false => exact Or.inr (by simp [get_config, h])
  · intro c o
    cases h : (c && o) with
    | true => exact Or.inl (by simp [set_config, h])
    | false => exact Or.inr (by simp [set_config, h])
  · intro c o fn pn
    cases h : (c && o) with
    | true => exact Or.inl (by simp [get_metrics, h])
    | false => exact Or.inr (by simp [get_metrics, h])
  · intro c api
    cases c with
    | false => exact Or.inr rfl
    | true =>
      cases h : start_traffic_internal api with
      | ok u => exact Or.inl (by simp [start_traffic, h])
      | error e => exact Or.inr (by simp [start_traffic, h])
  · intro c api
    cases c with
    | true => exact Or.inl rfl
    | false => exact Or.inr rfl
  · intro c api p
    cases c with
    | false => exact Or.inr rfl
    | true =>
      cases h : api.port_capture_start_ok with
      | true => exact Or.inl (by simp [start_capture, ClientCapture.start_capture, h])
      | false => exact Or.inr (by simp [start_capture, ClientCapture.start_capture, h])
  · intro c api p
    cases c with
    | false => exact Or.inr rfl
    | true =>
      cases h : api.port_capture_stop_ok with
      | true => exact Or.inl (by simp [stop_capture, ClientCapture.stop_capture, h])
      | false => exact Or.inr (by simp [stop_capture, ClientCapture.stop_capture, h])
  · intro c f p od fn rh
    cases c with
    | false => exact Or.inr rfl
    | true =>
      cases h : f with
      | true => exact Or.inl (by simp [get_capture, ClientCapture.get_capture, h])
      | false => exact Or.inr (by simp [get_capture, ClientCapture.get_capture, h])
  · intro vo t ts
    exact hif _
  · intro co vo ts s
    unfold get_available_targets
    rw [gat_keys]
    simp

end OtgClient

namespace SchemaRegistry

/-- Mutable part of `SchemaRegistry` the availability claims are about:
`self._available_schemas` (schema_registry.py line 32), `None` until the
first scan. -/
structure RegistryState where
  available : Option (List String)
deriving DecidableEq

/-- One filesystem observation: the directory scans of the custom and
built-in schema directories (each listed entry a subdirectory containing an
`openapi.yaml`); `none` models a missing or unconfigured directory (or a
scan error for the custom one, which is caught and ignored). -/
structure DirScan where
  custom : Option (List String)
  builtin : Option (List String)
deriving DecidableEq

/-- The list built by the first `get_available_schemas` call
(schema_registry.py lines 63-112): custom entries first, then built-in
entries that do not collide with anything already collected. -/
def computeAvailable (fs : DirScan) : List String :=
  let base := match fs.custom with
    | some l => l
    | none => []
  match fs.builtin with
  | none => base
  | some bs => bs.foldl (fun acc d => if acc.contains d then acc else acc ++ [d]) base

/-- `SchemaRegistry.get_available_schemas` (schema_registry.py lines
55-114): scan and cache on first use, return the cached list afterwards. -/
def get_available_schemas (fs : DirScan) (s : RegistryState) :
    List String × RegistryState :=
  match s.available with
  | some l => (l, s)
  | none =>
    let l := computeAvailable fs
    (l, { available := some l })

/-- `SchemaRegistry.schema_exists` (lines 116-128): membership of the
normalized version in `get_available_schemas()`. -/
def schema_exists (fs : DirScan) (v : String) (s : RegistryState) :
    Bool × RegistryState :=
  let (l, s') := get_available_schemas fs s
  (l.contains (normalize_version v), s')

/-- Stateful `SchemaRegistry.find_closest_schema_version` (lines 346-441):
the method starts from `self.get_available_schemas()`; the pure
`find_closest_schema_version` above is its body over that list. -/
def find_closest_schema_version_st (fs : DirScan) (r : String) (s : RegistryState) :
    Option String × RegistryState :=
  let (l, s') := get_available_schemas fs s
  (find_closest_schema_version l r, s')

/-- Stateful `SchemaRegistry.get_latest_schema_version` (lines 443-472). -/
def get_latest_schema_version_st (fs : DirScan) (s : RegistryState) :
    Option String × RegistryState :=
  let (l, s') := get_available_schemas fs s
  (get_latest_schema_version l, s')

/-- The registry attribute sitting next to the client cache on `OtgClient`;
`get_available_targets` clears only `self.api_clients` (client.py line
952) and never touches `self.schema_registry`. -/
structure CombinedState where
  client : OtgClient.ClientState
  registry : RegistryState

/-- The `self.api_clients.clear()` of `get_available_targets`, seen on the
combined state. -/
def clear_client_cache (s : CombinedState) : CombinedState :=
  { s with client := OtgClient.clear_cache s.client }

/-- C10: the available-schemas list is computed at most once per registry:
the first call scans the directories and caches the result; every later
call returns exactly the cached list and leaves the state unchanged no
matter how the filesystem has changed; `schema_exists`,
`find_closest_schema_version` and `get_latest_schema_version` consume that
same cache and are likewise insensitive to the filesystem once it is
populated; and clearing the client cache never touches the registry
state. -/
theorem C10_available_schemas_cached_once :
    (∀ fs : DirScan, get_available_schemas fs ⟨none⟩ =
        (computeAvailable fs, ⟨some (computeAvailable fs)⟩)) ∧
    (∀ (fs1 fs2 : DirScan) (s : RegistryState),
        get_available_schemas fs2 (get_available_schemas fs1 s).2 =
          ((get_available_schemas fs1 s).1, (get_available_schemas fs1 s).2)) ∧
    (∀ (fs1 fs2 : DirScan) (l : List String) (v : String),
        schema_exists fs1 v ⟨some l⟩ = schema_exists fs2 v ⟨some l⟩) ∧
    (∀ (fs1 fs2 : DirScan) (l : List String) (r : String),
        find_closest_schema_version_st fs1 r ⟨some l⟩ =
          find_closest_schema_version_st fs2 r ⟨some l⟩) ∧
    (∀ (fs1 fs2 : DirScan) (l : List String),
        get_latest_schema_version_st fs1 ⟨some l⟩ =
          get_latest_schema_version_st fs2 ⟨some l⟩) ∧
    (∀ (fs : DirScan) (v : String) (s : RegistryState),
        (schema_exists fs v s).2 = (get_available_schemas fs s).2) ∧
    (∀ s : CombinedState, (clear_client_cache s).registry = s.registry) := by
  refine ⟨?_, ?_, ?_, ?_, ?_, ?_, ?_⟩
  · intro fs
    rfl
  · intro fs1 fs2 s
    obtain ⟨av⟩ := s
    cases av <;> rfl
  · intro fs1 fs2 l v
    rfl
  · intro fs1 fs2 l r
    rfl
  · intro fs1 fs2 l
    rfl
  · intro fs v s
    obtain ⟨av⟩ := s
    cases av <;> rfl
  · intro s
    rfl

end SchemaRegistry

section SanityChecks

example : SchemaRegistry.parse_version "1.35.0" = [1, 35, 0] := by decide

example : SchemaRegistry.parse_version "1_30" = [1, 30] := by decide

example : SchemaRegistry.normalize_version "1.35.0" = "1_35_0" := by decide

example :
    SchemaRegistry.find_closest_schema_version ["1_30_0", "1_31_0"] "1.35.0" =
      some "1_31_0" := by decide

example :
    SchemaRegistry.find_closest_schema_version ["1_30_0", "1_31_0", "2_0_0"] "1.30.5" =
      some "1_30_0" := by decide

example :
    SchemaRegistry.find_closest_schema_version ["1_30_0", "1_31_0"] "3.0.0" =
      some "1_31_0" := by decide

example :
    SchemaRegistry.find_closest_schema_version ["1_30_0", "1_31_0"] "1.31.0" =
      some "1_31_0" := by decide

end SanityChecks
